import Mathlib

/-
Verification of the ClariNet distillation training orchestrator
(src/StudentGaussianIAF/train.py) against its specification.

The script wires a frozen teacher WaveNet and a frozen conditioning
encoder together with a trainable student flow, and configures a Chainer
optimizer, iterators, updater and trainer extensions.  The definitions
below shallowly embed the configuration decisions the script makes and
the semantics of the Chainer primitives it calls (`disable_update`,
`optimizer.setup`, `GradientClipping`, `ExponentialShift`, `Evaluator`,
iterator and updater selection, resume via `load_npz`).  Machine floats
are modelled as rationals; squared norms are used where the library
takes a square root, with the algebraic translation recorded at the
definition.
-/

namespace ClariNet

/-- A single Chainer parameter: a value together with the
`update_rule.enabled` flag that `Link.disable_update` clears. -/
structure Param where
  value : ℚ
  updateEnabled : Bool
deriving DecidableEq

/-- The `DistilModel(encoder, teacher, student)` link tree built at
train.py line 80: three sublinks, each holding its parameters. -/
structure DistilModel where
  encoder : List Param
  teacher : List Param
  student : List Param
deriving DecidableEq

/-- Chainer `Link.disable_update`: sets `update_rule.enabled = False` on
every parameter of the link, leaving the values untouched. -/
def disable_update (ps : List Param) : List Param :=
  ps.map fun p => { p with updateEnabled := false }

/-- Lines 86-87 of train.py: `model.teacher.disable_update()` and
`model.encoder.disable_update()`; the student sublink is left as is. -/
def freezeSetup (m : DistilModel) : DistilModel :=
  { m with
    teacher := disable_update m.teacher
    encoder := disable_update m.encoder }

/-- `optimizer.setup(model)` at line 84: the optimizer's target link is
the whole `DistilModel`, so its update target set is every parameter
reachable in the link tree — encoder, teacher and student alike. -/
def optimizerTargetParams (m : DistilModel) : List Param :=
  m.encoder ++ m.teacher ++ m.student

/-- Chainer `UpdateRule.update` over one parameter list: the rule is
applied to a parameter exactly when its `enabled` flag is set.  The
per-step Adam rule (gradient included) is abstracted as `upd`. -/
def updateParams (upd : ℚ → ℚ) (ps : List Param) : List Param :=
  ps.map fun p => if p.updateEnabled then { p with value := upd p.value } else p

/-- One `optimizer.update` over the whole target link: every sublink's
parameters pass through their update rules.  The rule `upd` may depend
on the whole current model (gradients couple all parameters). -/
def trainStep (upd : DistilModel → ℚ → ℚ) (m : DistilModel) : DistilModel :=
  { encoder := updateParams (upd m) m.encoder
    teacher := updateParams (upd m) m.teacher
    student := updateParams (upd m) m.student }

/-- `N` successive training steps, with a possibly different effective
update rule at each step (`upds n` is the rule of step `n`). -/
def trainRun (upds : ℕ → DistilModel → ℚ → ℚ) : ℕ → DistilModel → DistilModel
  | 0, m => m
  | n + 1, m => trainRun upds n (trainStep (upds n) m)

/-- Every parameter produced by `disable_update` has its flag cleared. -/
theorem disable_update_flag (ps : List Param) :
    ∀ p ∈ disable_update ps, p.updateEnabled = false := by
  intro p hp
  simp only [disable_update, List.mem_map] at hp
  obtain ⟨q, _, rfl⟩ := hp
  rfl

/-- `disable_update` does not change parameter values. -/
theorem disable_update_values (ps : List Param) :
    (disable_update ps).map Param.value = ps.map Param.value := by
  simp [disable_update, List.map_map, Function.comp]

/-- A parameter list whose flags are all cleared passes through an
update rule unchanged. -/
theorem updateParams_of_disabled (upd : ℚ → ℚ) (ps : List Param)
    (h : ∀ p ∈ ps, p.updateEnabled = false) :
    updateParams upd ps = ps := by
  induction ps with
  | nil => rfl
  | cons q qs ih =>
      have hq : q.updateEnabled = false := h q (List.mem_cons_self q qs)
      have hqs : ∀ p ∈ qs, p.updateEnabled = false :=
        fun p hp => h p (List.mem_cons_of_mem q hp)
      simp [updateParams, hq] at ih ⊢
      exact ih hqs

/-- One training step leaves the teacher and encoder sublinks of a
frozen-setup model untouched, and keeps their flags cleared. -/
theorem trainStep_frozen (upd : DistilModel → ℚ → ℚ) (m : DistilModel)
    (ht : ∀ p ∈ m.teacher, p.updateEnabled = false)
    (he : ∀ p ∈ m.encoder, p.updateEnabled = false) :
    (trainStep upd m).teacher = m.teacher ∧ (trainStep upd m).encoder = m.encoder := by
  constructor
  · exact updateParams_of_disabled (upd m) m.teacher ht
  · exact updateParams_of_disabled (upd m) m.encoder he

/-- Any number of training steps leaves the teacher and encoder
sublinks of a model with cleared frozen flags untouched. -/
theorem trainRun_frozen (upds : ℕ → DistilModel → ℚ → ℚ) (N : ℕ)
    (m : DistilModel)
    (ht : ∀ p ∈ m.teacher, p.updateEnabled = false)
    (he : ∀ p ∈ m.encoder, p.updateEnabled = false) :
    (trainRun upds N m).teacher = m.teacher ∧ (trainRun upds N m).encoder = m.encoder := by
  induction N generalizing upds m with
  | zero => exact ⟨rfl, rfl⟩
  | succ n ih =>
      have hstep := trainStep_frozen (upds n) m ht he
      have ht2 : ∀ p ∈ (trainStep (upds n) m).teacher, p.updateEnabled = false := by
        rw [hstep.1]; exact ht
      have he2 : ∀ p ∈ (trainStep (upds n) m).encoder, p.updateEnabled = false := by
        rw [hstep.2]; exact he
      have := ih (fun k => upds k) (trainStep (upds n) m) ht2 he2
      exact ⟨this.1.trans hstep.1, this.2.trans hstep.2⟩

/-- A small concrete model instance used for concrete evaluations: one
encoder parameter, one teacher parameter, one student parameter, all
with update rules initially enabled, as after construction. -/
def demoModel : DistilModel :=
  { encoder := [⟨1, true⟩], teacher := [⟨2, true⟩], student := [⟨3, true⟩] }

/-- C1: for every number N ≥ 1 of completed training steps, the frozen
parameter set (teacher and conditioning-encoder values) after N steps is
bit-identical to its value before step 1; no step mutates a frozen
parameter.  Holds for every model and every sequence of update rules. -/
theorem C1_freeze_invariant (m : DistilModel)
    (upds : ℕ → DistilModel → ℚ → ℚ) (N : ℕ) (_hN : 1 ≤ N) :
    (trainRun upds N (freezeSetup m)).teacher.map Param.value
        = m.teacher.map Param.value ∧
    (trainRun upds N (freezeSetup m)).encoder.map Param.value
        = m.encoder.map Param.value := by
  have hrun := trainRun_frozen upds N (freezeSetup m)
    (disable_update_flag m.teacher) (disable_update_flag m.encoder)
  constructor
  · rw [hrun.1]; exact disable_update_values m.teacher
  · rw [hrun.2]; exact disable_update_values m.encoder

/-- C1 witness: three steps of a rule that adds one to every enabled
parameter leave the teacher and encoder values of the demo model at
their startup values. -/
theorem C1_freeze_invariant_witness :
    1 ≤ 3 ∧
    ((trainRun (fun _ _ v => v + 1) 3 (freezeSetup demoModel)).teacher.map Param.value
        = demoModel.teacher.map Param.value ∧
     (trainRun (fun _ _ v => v + 1) 3 (freezeSetup demoModel)).encoder.map Param.value
        = demoModel.encoder.map Param.value) :=
  ⟨by decide, C1_freeze_invariant demoModel (fun _ _ v => v + 1) 3 (by decide)⟩

/-- C2 counterexample: the optimizer is set up with the whole
`DistilModel`, so its update target set contains the teacher parameter
of the demo model — the frozen subgraphs are referenced by the update
policy, contradicting the claim that the target set is exactly the
student parameter set and that omission is structural. -/
theorem C2_counterexample :
    (⟨2, false⟩ : Param) ∈ optimizerTargetParams (freezeSetup demoModel) ∧
    (⟨2, false⟩ : Param) ∈ (freezeSetup demoModel).teacher ∧
    optimizerTargetParams (freezeSetup demoModel)
      ≠ (freezeSetup demoModel).student := by
  refine ⟨?_, ?_, ?_⟩ <;> decide

/-- C2 amended: `optimizer.setup(model)` targets the entire model, the
teacher and encoder parameters included; their exclusion from updates is
enforced by the `disable_update` runtime flags set at lines 86-87, under
which no training step ever applies an update to a frozen value. -/
theorem C2_setup_targets_whole_model (m : DistilModel)
    (upds : ℕ → DistilModel → ℚ → ℚ) (N : ℕ) :
    (∀ p ∈ (freezeSetup m).teacher, p ∈ optimizerTargetParams (freezeSetup m)) ∧
    (∀ p ∈ (freezeSetup m).encoder, p ∈ optimizerTargetParams (freezeSetup m)) ∧
    (∀ p ∈ (freezeSetup m).teacher, p.updateEnabled = false) ∧
    (∀ p ∈ (freezeSetup m).encoder, p.updateEnabled = false) ∧
    (trainRun upds N (freezeSetup m)).teacher = (freezeSetup m).teacher ∧
    (trainRun upds N (freezeSetup m)).encoder = (freezeSetup m).encoder := by
  have hrun := trainRun_frozen upds N (freezeSetup m)
    (disable_update_flag m.teacher) (disable_update_flag m.encoder)
  refine ⟨?_, ?_, disable_update_flag m.teacher, disable_update_flag m.encoder,
    hrun.1, hrun.2⟩
  · intro p hp
    simp [optimizerTargetParams, hp]
  · intro p hp
    simp [optimizerTargetParams, hp]

/-- C2 witness: the amended statement instantiated on the demo model
with an add-one update rule for two steps. -/
theorem C2_setup_targets_whole_model_witness :
    (∀ p ∈ (freezeSetup demoModel).teacher,
        p ∈ optimizerTargetParams (freezeSetup demoModel)) ∧
    (∀ p ∈ (freezeSetup demoModel).encoder,
        p ∈ optimizerTargetParams (freezeSetup demoModel)) ∧
    (∀ p ∈ (freezeSetup demoModel).teacher, p.updateEnabled = false) ∧
    (∀ p ∈ (freezeSetup demoModel).encoder, p.updateEnabled = false) ∧
    (trainRun (fun _ _ v => v + 1) 2 (freezeSetup demoModel)).teacher
        = (freezeSetup demoModel).teacher ∧
    (trainRun (fun _ _ v => v + 1) 2 (freezeSetup demoModel)).encoder
        = (freezeSetup demoModel).encoder :=
  C2_setup_targets_whole_model demoModel (fun _ _ v => v + 1) 2

/-- Line 83: `optimizer = chainer.optimizers.Adam(params.lr / len(args.gpus))`.
The learning rate handed to Adam is the configured base rate divided by
the number of listed devices.  `params.lr` is a configuration value and
stays abstract; the device list holds the integer ids from `--gpus`. -/
def adamAlpha (lr : ℚ) (gpus : List ℤ) : ℚ :=
  lr / (gpus.length : ℚ)

/-- C3: for every device list of length D ≥ 1 the learning-rate value
handed to the optimizer equals the configured rate divided by D, so
multiplying back by the device count recovers the configured rate and
the effective step size is device-count independent. -/
theorem C3_adam_alpha_scaled (lr : ℚ) (gpus : List ℤ) (hg : gpus ≠ []) :
    adamAlpha lr gpus = lr / (gpus.length : ℚ) ∧
    (gpus.length : ℚ) * adamAlpha lr gpus = lr := by
  have hlen : (gpus.length : ℚ) ≠ 0 := by
    have h0 : gpus.length ≠ 0 := by
      simpa [List.length_eq_zero] using hg
    exact_mod_cast h0
  exact ⟨rfl, mul_div_cancel₀ lr hlen⟩

/-- C3 witness: with base rate 1/10 and two devices, Adam receives 1/20
and two devices times 1/20 gives back 1/10. -/
theorem C3_adam_alpha_scaled_witness :
    adamAlpha (1/10) [0, 1] = (1/10) / ((2 : ℕ) : ℚ) ∧
    (([0, 1] : List ℤ).length : ℚ) * adamAlpha (1/10) [0, 1] = 1/10 :=
  C3_adam_alpha_scaled (1/10) [0, 1] (by decide)

/-- Line 116: `extensions.ExponentialShift('alpha', 0.5)`.  Each firing
of its trigger multiplies the tracked hyperparameter by the fixed rate
1/2, independent of the data. -/
def annealOnce (alpha : ℚ) : ℚ :=
  alpha * (1 / 2)

/-- The tracked learning-rate scalar after `k` firings of the annealing
trigger, starting from `alpha0`. -/
def annealAfter : ℕ → ℚ → ℚ
  | 0, alpha0 => alpha0
  | k + 1, alpha0 => annealAfter k (annealOnce alpha0)

/-- C4: after k anneal triggers the tracked scalar equals the initial
value times (1/2)^k — in particular half after one trigger and one
quarter after two — independent of the data. -/
theorem C4_annealing_geometric (k : ℕ) (alpha0 : ℚ) :
    annealAfter k alpha0 = alpha0 * (1 / 2) ^ k ∧
    annealAfter 1 alpha0 = alpha0 * (1 / 2) ∧
    annealAfter 2 alpha0 = alpha0 * (1 / 4) := by
  refine ⟨?_, by simp [annealAfter, annealOnce], by ring_nf; simp [annealAfter, annealOnce]; ring⟩
  induction k generalizing alpha0 with
  | zero => simp [annealAfter]
  | succ n ih =>
      rw [annealAfter, ih (annealOnce alpha0), annealOnce]
      ring

/-- Line 85: `optimizer.add_hook(chainer.optimizer.GradientClipping(10))`:
the configured clipping threshold is 10. -/
def clipThreshold : ℚ := 10

/-- Squared global L2 norm of a gradient vector. -/
def sqnorm (g : List ℚ) : ℚ :=
  (g.map fun x => x * x).sum

/-- Chainer `GradientClipping.__call__`: it computes the global norm
`sqrt s` over all gradients and, when `threshold / sqrt s < 1`, scales
every gradient by that rate.  Tracked with squared norms to stay in ℚ:
`threshold / sqrt s < 1` holds exactly when `threshold^2 < s`, and the
scaled gradient's squared norm is `s * threshold^2 / s = threshold^2`;
otherwise the hook leaves the gradients untouched. -/
def postClipSqnorm (s : ℚ) : ℚ :=
  if clipThreshold ^ 2 < s then clipThreshold ^ 2 else s

/-- C7: after the clipping hook runs, the squared global gradient norm
never exceeds the squared threshold 10^2 (so the norm never exceeds
10), and when the incoming norm is already within the threshold the
hook is a no-op. -/
theorem C7_clip_bound (g : List ℚ) :
    postClipSqnorm (sqnorm g) ≤ clipThreshold ^ 2 ∧
    (sqnorm g ≤ clipThreshold ^ 2 → postClipSqnorm (sqnorm g) = sqnorm g) := by
  constructor
  · unfold postClipSqnorm
    split
    · exact le_refl _
    · exact le_of_not_lt (by assumption)
  · intro h
    unfold postClipSqnorm
    split
    · exact absurd h (not_le.mpr (by assumption))
    · rfl

/-- C7 witness: a synthetic gradient of global norm 100 (squared norm
10000) is rescaled to squared norm exactly 100, i.e. norm 10 ≤ 10; and
a gradient of norm 5 (squared norm 25) passes through unchanged. -/
theorem C7_clip_bound_witness :
    postClipSqnorm (sqnorm [100]) ≤ clipThreshold ^ 2 ∧
    postClipSqnorm (sqnorm [100]) = 100 ∧
    postClipSqnorm (sqnorm [3, 4]) = sqnorm [3, 4] :=
  ⟨(C7_clip_bound [100]).1,
   by norm_num [postClipSqnorm, sqnorm, clipThreshold],
   (C7_clip_bound [3, 4]).2 (by norm_num [sqnorm, clipThreshold])⟩

/-- The two updater classes reachable from lines 103-110. -/
inductive UpdaterKind
  | standard
  | parallel
deriving DecidableEq

/-- Lines 103-110: `if args.gpus == [-1]` builds the single-process CPU
`StandardUpdater`; any other device list takes the GPU branch and
builds a `ParallelUpdater` over the listed devices. -/
def updaterChoice (gpus : List ℤ) : UpdaterKind :=
  if gpus = [-1] then UpdaterKind.standard else UpdaterKind.parallel

/-- Lines 35-37: the CUDA workspace and autotune configuration runs
exactly when `args.gpus != [-1]`. -/
def gpuSetupRuns (gpus : List ℤ) : Bool :=
  gpus ≠ [-1]

/-- C8 counterexample: `[-2]` is a device-selector list consisting of a
single negative identifier, yet the program takes the GPU branch: the
`ParallelUpdater` is built, not the single-device CPU updater, and the
CUDA setup runs.  The code compares against the literal `[-1]`, not
against "any single negative id". -/
theorem C8_counterexample :
    ((-2 : ℤ) < 0 ∧ ([(-2 : ℤ)]).length = 1) ∧
    updaterChoice [(-2 : ℤ)] ≠ UpdaterKind.standard ∧
    updaterChoice [(-2 : ℤ)] = UpdaterKind.parallel ∧
    gpuSetupRuns [(-2 : ℤ)] = true := by
  refine ⟨⟨by decide, by decide⟩, by decide, by decide, by decide⟩

/-- C8 amended: CPU-only mode is selected exactly for the literal
device list `[-1]`: the `StandardUpdater` is chosen if and only if the
selector equals `[-1]`, and for `[-1]` the CUDA setup is skipped. -/
theorem C8_cpu_exactly_default (gpus : List ℤ) :
    (updaterChoice gpus = UpdaterKind.standard ↔ gpus = [-1]) ∧
    updaterChoice [(-1 : ℤ)] = UpdaterKind.standard ∧
    gpuSetupRuns [(-1 : ℤ)] = false := by
  refine ⟨?_, by decide, by decide⟩
  unfold updaterChoice
  split
  · simp_all
  · simp_all

/-- C8 witness: the amended statement instantiated at `[-1]`. -/
theorem C8_cpu_exactly_default_witness :
    updaterChoice [(-1 : ℤ)] = UpdaterKind.standard ∧
    gpuSetupRuns [(-1 : ℤ)] = false :=
  ⟨((C8_cpu_exactly_default [(-1 : ℤ)]).1).mpr rfl,
   (C8_cpu_exactly_default [(-1 : ℤ)]).2.2⟩

/-- The two iterator classes reachable from lines 90-100. -/
inductive IteratorKind
  | multiprocess
  | serial
deriving DecidableEq

/-- Lines 90-100: `if args.process * args.prefetch > 1` builds
`MultiprocessIterator`s for both splits, otherwise `SerialIterator`s.
Both CLI values are parsed as ints (lines 28-31). -/
def iteratorChoice (process prefetch : ℤ) : IteratorKind :=
  if 1 < process * prefetch then IteratorKind.multiprocess else IteratorKind.serial

/-- `--process` argparse default (line 28). -/
def defaultProcess : ℤ := 1

/-- `--prefetch` argparse default (line 30). -/
def defaultPrefetch : ℤ := 64

/-- C9: the multiprocess prefetching iterators are selected if and only
if the worker-process count times the prefetch depth exceeds 1, and
with the defaults (1 worker, prefetch 64) the multiprocess path is
selected. -/
theorem C9_iterator_choice (process prefetch : ℤ) :
    (iteratorChoice process prefetch = IteratorKind.multiprocess
      ↔ 1 < process * prefetch) ∧
    iteratorChoice defaultProcess defaultPrefetch = IteratorKind.multiprocess := by
  refine ⟨?_, by decide⟩
  unfold iteratorChoice
  split
  · simp_all
  · simp_all

/-- C9 witness: the characterisation applied at the defaults. -/
theorem C9_iterator_choice_witness :
    iteratorChoice 1 64 = IteratorKind.multiprocess ∧ (1 : ℤ) < 1 * 64 :=
  ⟨((C9_iterator_choice 1 64).1).mpr (by decide), by decide⟩

/-- Lines 91-92 and 98: the training iterator is built with the full
configured `params.batchsize`. -/
def trainBatchSize (batchsize : ℕ) : ℕ :=
  batchsize

/-- Lines 94-95 and 99-100: the validation iterator is built with
`params.batchsize // len(args.gpus)`; Python floor division on
nonnegative ints coincides with truncated natural division. -/
def validBatchSize (batchsize : ℕ) (gpus : List ℤ) : ℕ :=
  batchsize / gpus.length

/-- C10: for a device list of length D the validation iterator's batch
size is the configured batch size integer-divided by D while the
training iterator keeps the full batch size; for D = 1 the two agree,
and for D greater than the batch size the validation batch size is 0. -/
theorem C10_valid_batch_divided (batchsize : ℕ) (gpus : List ℤ) (D : ℕ)
    (hD : gpus.length = D) (hpos : 1 ≤ D) :
    validBatchSize batchsize gpus = batchsize / D ∧
    trainBatchSize batchsize = batchsize ∧
    (D = 1 → validBatchSize batchsize gpus = trainBatchSize batchsize) ∧
    (batchsize < D → validBatchSize batchsize gpus = 0) := by
  subst hD
  refine ⟨rfl, rfl, ?_, ?_⟩
  · intro h1
    simp [validBatchSize, trainBatchSize, h1]
  · intro hlt
    simp [validBatchSize, Nat.div_eq_of_lt hlt]

/-- C10 witness: batch size 8 over the three devices `[0, 1, 2]` gives
validation batches of 8 / 3 = 2 while training keeps 8; and batch size
1 over those three devices gives validation batch size 0. -/
theorem C10_valid_batch_divided_witness :
    (([0, 1, 2] : List ℤ).length = 3 ∧ 1 ≤ 3) ∧
    validBatchSize 8 [0, 1, 2] = 8 / 3 ∧
    (1 < 3 → validBatchSize 1 [0, 1, 2] = 0) :=
  ⟨⟨by decide, by decide⟩,
   (C10_valid_batch_divided 8 [0, 1, 2] 3 (by decide) (by decide)).1,
   (C10_valid_batch_divided 1 [0, 1, 2] 3 (by decide) (by decide)).2.2.2⟩

/-- The serialized state of the `Trainer` (line 113): the trainable
student parameter values, the optimizer's per-parameter Adam moments,
and the training counters.  This is exactly what `extensions.snapshot`
saves and what `load_npz(args.resume, trainer)` restores. -/
structure TrainerState where
  studentParams : List ℚ
  optMoments : List (ℚ × ℚ)
  iteration : ℕ
  epoch : ℕ
deriving DecidableEq

/-- Lines 148-149: `if args.resume: load_npz(args.resume, trainer)` —
run before `trainer.run()` at line 159.  A nonempty `--resume` string is
truthy, and loading overwrites the trainer state with the checkpoint
contents; otherwise the freshly constructed state is kept. -/
def startupState (resume : String) (ckpt fresh : TrainerState) : TrainerState :=
  if resume ≠ "" then ckpt else fresh

/-- One `Trainer` iteration once running: the updater mutates the
student parameters and optimizer moments (the concrete Adam step is
abstracted as `f`) and the iteration counter advances by one. -/
def trainerStep (f : List ℚ × List (ℚ × ℚ) → List ℚ × List (ℚ × ℚ))
    (s : TrainerState) : TrainerState :=
  { s with
    studentParams := (f (s.studentParams, s.optMoments)).1
    optMoments := (f (s.studentParams, s.optMoments)).2
    iteration := s.iteration + 1 }

/-- `m` trainer iterations from a state. -/
def runFrom (f : List ℚ × List (ℚ × ℚ) → List ℚ × List (ℚ × ℚ)) :
    ℕ → TrainerState → TrainerState
  | 0, s => s
  | m + 1, s => runFrom f m (trainerStep f s)

/-- The iteration counter advances by exactly the number of completed
iterations. -/
theorem runFrom_iteration (f : List ℚ × List (ℚ × ℚ) → List ℚ × List (ℚ × ℚ))
    (m : ℕ) (s : TrainerState) :
    (runFrom f m s).iteration = s.iteration + m := by
  induction m generalizing s with
  | zero => rfl
  | succ n ih =>
      rw [runFrom, ih (trainerStep f s)]
      simp [trainerStep]
      ring

/-- C5: when a nonempty resume-checkpoint path is supplied, the state
entering the running loop is exactly the checkpoint — student
parameters, optimizer moments and counters restored as saved — and
after m further iterations the iteration counter reads the restored
count plus m, so training continues forward from it. -/
theorem C5_resume_restores (resume : String) (ckpt fresh : TrainerState)
    (f : List ℚ × List (ℚ × ℚ) → List ℚ × List (ℚ × ℚ)) (m : ℕ)
    (hres : resume ≠ "") :
    startupState resume ckpt fresh = ckpt ∧
    (runFrom f m (startupState resume ckpt fresh)).iteration = ckpt.iteration + m := by
  have hload : startupState resume ckpt fresh = ckpt := by
    simp [startupState, hres]
  refine ⟨hload, ?_⟩
  rw [hload, runFrom_iteration]

/-- C5 witness: resuming from a concrete checkpoint at iteration 1000
with path "snapshot_iter_1000" restores that state, and two further
iterations reach iteration 1002. -/
theorem C5_resume_restores_witness :
    startupState "snapshot_iter_1000" ⟨[5], [(0, 0)], 1000, 7⟩ ⟨[0], [], 0, 0⟩
        = ⟨[5], [(0, 0)], 1000, 7⟩ ∧
    (runFrom id 2 (startupState "snapshot_iter_1000"
        ⟨[5], [(0, 0)], 1000, 7⟩ ⟨[0], [], 0, 0⟩)).iteration
        = (⟨[5], [(0, 0)], 1000, 7⟩ : TrainerState).iteration + 2 :=
  C5_resume_restores "snapshot_iter_1000" ⟨[5], [(0, 0)], 1000, 7⟩
    ⟨[0], [], 0, 0⟩ id 2 (by decide)

/-- The four scalars net.py's DistilModel reports per batch: total
loss, KL divergence, regularization, spectrogram frame loss. -/
structure Report where
  loss : ℚ
  kl_divergence : ℚ
  regularization : ℚ
  spectrogram_frame_loss : ℚ
deriving DecidableEq

/-- The trainer together with the log of observations its reporting
extensions have emitted. -/
structure ObservedState where
  core : TrainerState
  observations : List (ℕ × List Report)
deriving DecidableEq

/-- `extensions.Evaluator(valid_iter, model, ...)` (lines 118-119): one
full single pass over the validation iterator, calling the model's
forward pass — a pure function of the current parameter values and the
batch — on each batch and collecting the reported scalars.  It calls no
optimizer method. -/
def evaluatorRun (forward : List ℚ → ℚ → Report) (params : List ℚ)
    (validData : List ℚ) : List Report :=
  validData.map (forward params)

/-- The Evaluator extension firing at a trigger boundary: it records
the validation report for the current iteration as an observation.  No
optimizer update runs, so the trainer core it returns is built from the
incoming parameters, moments and counters. -/
def fireEvaluator (forward : List ℚ → ℚ → Report) (validData : List ℚ)
    (es : ObservedState) : ObservedState :=
  { core :=
      { studentParams := es.core.studentParams
        optMoments := es.core.optMoments
        iteration := es.core.iteration
        epoch := es.core.epoch }
    observations :=
      (es.core.iteration, evaluatorRun forward es.core.studentParams validData)
        :: es.observations }

/-- C6: an evaluation pass changes no trainable parameter value — the
snapshot of student parameters before the pass equals the one after —
and performs no optimizer step: moments and counters are also exactly
preserved, while the pass only appends the report it computed from the
unchanged parameters. -/
theorem C6_evaluation_purity (forward : List ℚ → ℚ → Report)
    (validData : List ℚ) (es : ObservedState) :
    (fireEvaluator forward validData es).core.studentParams
        = es.core.studentParams ∧
    (fireEvaluator forward validData es).core.optMoments = es.core.optMoments ∧
    (fireEvaluator forward validData es).core.iteration = es.core.iteration ∧
    (fireEvaluator forward validData es).core.epoch = es.core.epoch ∧
    (fireEvaluator forward validData es).observations
        = (es.core.iteration, evaluatorRun forward es.core.studentParams validData)
            :: es.observations := by
  refine ⟨rfl, rfl, rfl, rfl, rfl⟩

end ClariNet
